import Mathlib

/-!
Verification of `electrumsv/gui/qt/cosigners_view.py`: the cosigner-card
state machine (`CosignerState`, `CosignerCard`, `CosignerList`).

The external collaborators (the BIP32 key parsing routine
`bip32_key_from_string` from `bitcoinx`, the keystore instantiation routine
`instantiate_keystore_from_text`, and the modal sub-wizard) are modelled as
parameters of the operations that call them, so every theorem quantifies
over their behaviour.  Widget effects that matter to the specification
(the key edit field's text and read-only flag, the toggle button's icon and
tooltip, the status label's text and style sheet) are fields of the card
record; the `pyqtSignal` emissions are collected as a list of emitted
cosigner indices returned alongside the updated card.
-/

/-- Modelled from the spec: the `KeyStore` interface from
`electrumsv.keystore` is not part of the analysed source.  The spec says a
keystore value exposes `get_master_public_key() -> string` and
`is_watching_only() -> bool`; we model it as a record of those two
observations. -/
structure KeyStore where
  master_public_key : String
  watching_only : Bool
deriving Repr, DecidableEq

def KeyStore.get_master_public_key (ks : KeyStore) : String :=
  ks.master_public_key

def KeyStore.is_watching_only (ks : KeyStore) : Bool :=
  ks.watching_only

/-- `class CosignerState`: `keystore` and `is_local` are class attributes
defaulting to `None` / `False`; `cosigner_index` is set by `__init__`. -/
structure CosignerState where
  cosigner_index : Nat
  keystore : Option KeyStore
  is_local : Bool
deriving Repr, DecidableEq

/-- `CosignerState.__init__(cosigner_index)`: a fresh state has the class
defaults `keystore = None`, `is_local = False`. -/
def CosignerState.init (cosigner_index : Nat) : CosignerState :=
  { cosigner_index := cosigner_index, keystore := none, is_local := false }

/-- `CosignerState.reset()`. -/
def CosignerState.reset (s : CosignerState) : CosignerState :=
  { s with keystore := none, is_local := false }

/-- `CosignerState.is_complete()`. -/
def CosignerState.is_complete (s : CosignerState) : Bool :=
  s.keystore.isSome

/-- The result of `bip32_key_from_string`: a tagged variant distinguishing
the `BIP32PublicKey` case (`isinstance(key, BIP32PublicKey)`) from any
other (private) extended-key case. -/
inductive BipKey where
  | publicKey
  | privateKey
deriving Repr, DecidableEq

/-- The toggle button's icon: `icons8-key.svg` or `icons8-delete.svg`. -/
inductive Icon where
  | keyIcon
  | deleteIcon
deriving Repr, DecidableEq

/-- The widget fields of a `CosignerCard` that the specification talks
about, plus the bound `CosignerState`. -/
structure CosignerCard where
  state : CosignerState
  key_edit_readonly : Bool
  key_edit_text : String
  button_icon : Icon
  button_tooltip : String
  label_text : String
  label_stylesheet : String
deriving Repr, DecidableEq

/-- `CosignerCard._update_status_label()`.  The source first tests
`self._state.is_complete()` and only then reads
`self._state.keystore.is_watching_only()`; since `is_complete()` holds iff
the keystore is non-null, this is a match on the keystore (the `none`
branch of a complete state is unreachable). -/
def CosignerCard.update_status_label (card : CosignerCard) : CosignerCard :=
  if card.state.is_complete then
    match card.state.keystore with
    | some ks =>
        if ks.is_watching_only then
          { card with label_text := "External party.", label_stylesheet := "" }
        else
          { card with label_text := "This account.", label_stylesheet := "" }
    | none => card
  else
    { card with label_text := "Not yet specified.",
                label_stylesheet := "QLabel \x7b color: red; \x7d" }

/-- `CosignerCard._update_keystore(keystore)`: updates the bound state and
the widgets, refreshes the status label, then emits `cosigner_updated`
with the state's cosigner index (returned as the singleton emission
list). -/
def CosignerCard.update_keystore (card : CosignerCard) (keystore : Option KeyStore) :
    CosignerCard × List Nat :=
  let card1 :=
    match keystore with
    | none =>
        { card with state := card.state.reset,
                    key_edit_readonly := false,
                    key_edit_text := "",
                    button_icon := Icon.keyIcon,
                    button_tooltip := "Set the current key for this cosigner" }
    | some ks =>
        { card with state := { card.state with keystore := some ks },
                    key_edit_readonly := true,
                    key_edit_text := ks.get_master_public_key,
                    button_icon := Icon.deleteIcon,
                    button_tooltip := "Clear the current key for this cosigner" }
  let card2 := card1.update_status_label
  (card2, [card2.state.cosigner_index])

/-- `CosignerCard._event_text_changed()`.  `bip32Parse` models
`bip32_key_from_string` (raising `ValueError` is the `Except.error` case)
and `instantiate` models `instantiate_keystore_from_text` applied to
`KeystoreTextType.EXTENDED_PUBLIC_KEY`, the text and a `None` password.
Only the parse call sits inside the `try/except ValueError`; a failure of
`instantiate` is an uncaught exception, i.e. an `Except.error` result of
the whole handler. -/
def CosignerCard.event_text_changed
    (bip32Parse : String → Except Unit BipKey)
    (instantiate : String → Except Unit KeyStore)
    (card : CosignerCard) : Except Unit (CosignerCard × List Nat) :=
  if card.key_edit_readonly then
    Except.ok (card, [])
  else
    match bip32Parse card.key_edit_text with
    | Except.error _ => Except.ok (card, [])
    | Except.ok key =>
        match key with
        | BipKey.privateKey => Except.ok (card, [])
        | BipKey.publicKey =>
            match instantiate card.key_edit_text with
            | Except.error e => Except.error e
            | Except.ok keystore => Except.ok (card.update_keystore (some keystore))

/-- Typing or pasting `s` into the key field: the field's content becomes
`s` and the `textChanged` handler runs. -/
def CosignerCard.feed_text
    (bip32Parse : String → Except Unit BipKey)
    (instantiate : String → Except Unit KeyStore)
    (s : String) (card : CosignerCard) : Except Unit (CosignerCard × List Nat) :=
  CosignerCard.event_text_changed bip32Parse instantiate
    { card with key_edit_text := s }

/-- `CosignerCard._event_click_set_cosigner_key()`.  `wizardResult` models
the modal sub-wizard run: `some ks` is the `QWizard.Accepted` outcome with
its keystore result, `none` is any other outcome.  When the state already
holds a keystore the wizard is not invoked at all. -/
def CosignerCard.event_click_set_cosigner_key
    (wizardResult : Option KeyStore) (card : CosignerCard) :
    CosignerCard × List Nat :=
  if card.state.keystore.isSome then
    card.update_keystore none
  else
    match wizardResult with
    | some ks => card.update_keystore (some ks)
    | none => card.update_keystore none

/-- `CosignerCard.__init__(main_window, state)`: builds the widgets (the
key edit starts editable and blank) and ends with
`self._update_keystore(None)`. -/
def CosignerCard.init (state : CosignerState) : CosignerCard × List Nat :=
  let card0 : CosignerCard :=
    { state := state,
      key_edit_readonly := false,
      key_edit_text := "",
      button_icon := Icon.keyIcon,
      button_tooltip := "",
      label_text := "",
      label_stylesheet := "" }
  card0.update_keystore none

/-- `class CosignerList(QListWidget)`: `__init__` calls
`setSortingEnabled(False)`; the items are kept in insertion order. -/
structure CosignerList where
  items : List CosignerCard
  sorting_enabled : Bool
deriving Repr, DecidableEq

def CosignerList.init : CosignerList :=
  { items := [], sorting_enabled := false }

/-- `CosignerList.add_state(state)`: constructs a `CosignerCard` bound to
`state`, appends it to the list and returns the card. -/
def CosignerList.add_state (l : CosignerList) (state : CosignerState) :
    CosignerList × CosignerCard :=
  let card := (CosignerCard.init state).1
  ({ l with items := l.items ++ [card] }, card)

/-- A sequence of `add_state` calls, one per state, left to right. -/
def CosignerList.add_states (l : CosignerList) (states : List CosignerState) :
    CosignerList :=
  states.foldl (fun acc s => (acc.add_state s).1) l

/-- A parse collaborator that accepts any string as an extended public
key. -/
def parseAlwaysPublic : String → Except Unit BipKey :=
  fun _ => Except.ok BipKey.publicKey

/-- A parse collaborator that rejects every string (raises `ValueError`). -/
def parseFails : String → Except Unit BipKey :=
  fun _ => Except.error ()

/-- A parse collaborator that yields an extended private key for every
string. -/
def parseAlwaysPrivate : String → Except Unit BipKey :=
  fun _ => Except.ok BipKey.privateKey

/-- A sample keystore value. -/
def sampleKeystore : KeyStore :=
  { master_public_key := "xpub-mpk", watching_only := true }

/-- An instantiation collaborator that always succeeds with
`sampleKeystore`. -/
def instantiateConst : String → Except Unit KeyStore :=
  fun _ => Except.ok sampleKeystore

/-- An instantiation collaborator that always raises. -/
def instantiateFails : String → Except Unit KeyStore :=
  fun _ => Except.error ()

/-- A sample state for cosigner index 2. -/
def sampleState : CosignerState := CosignerState.init 2

/-- A freshly constructed (hence Empty) card for `sampleState`. -/
def sampleCard : CosignerCard := (CosignerCard.init sampleState).1

/-- `sampleCard` after binding `sampleKeystore` (a Bound card). -/
def boundCard : CosignerCard := (sampleCard.update_keystore (some sampleKeystore)).1

theorem update_status_label_state_eq (card : CosignerCard) :
    card.update_status_label.state = card.state := by
  unfold CosignerCard.update_status_label
  rcases card with ⟨⟨i, ks, loc⟩, ro, txt, ic, tip, lt, lss⟩
  cases ks with
  | none => simp [CosignerState.is_complete]
  | some k =>
      cases h : k.is_watching_only <;>
        simp [CosignerState.is_complete, h]

theorem update_keystore_none_eq (card : CosignerCard) :
    card.update_keystore none =
      ({ state := card.state.reset,
         key_edit_readonly := false,
         key_edit_text := "",
         button_icon := Icon.keyIcon,
         button_tooltip := "Set the current key for this cosigner",
         label_text := "Not yet specified.",
         label_stylesheet := "QLabel \x7b color: red; \x7d" },
       [card.state.cosigner_index]) := by
  unfold CosignerCard.update_keystore CosignerCard.update_status_label
  simp [CosignerState.reset, CosignerState.is_complete]

theorem update_keystore_some_eq (card : CosignerCard) (ks : KeyStore) :
    card.update_keystore (some ks) =
      ({ state := { card.state with keystore := some ks },
         key_edit_readonly := true,
         key_edit_text := ks.get_master_public_key,
         button_icon := Icon.deleteIcon,
         button_tooltip := "Clear the current key for this cosigner",
         label_text := if ks.is_watching_only then "External party." else "This account.",
         label_stylesheet := "" },
       [card.state.cosigner_index]) := by
  unfold CosignerCard.update_keystore CosignerCard.update_status_label
  cases h : ks.is_watching_only <;>
    simp [CosignerState.is_complete, h]

/-- C5: `is_complete()` returns true iff `keystore` is non-null; it is
false immediately after construction and after `reset()`, and true
immediately after a successful bind assigns a keystore (both on the bare
state and through `_update_keystore`). -/
theorem cosigner_state_is_complete_spec :
    (∀ s : CosignerState, s.is_complete = true ↔ s.keystore ≠ none) ∧
    (∀ i : Nat, (CosignerState.init i).is_complete = false) ∧
    (∀ s : CosignerState, s.reset.is_complete = false) ∧
    (∀ (s : CosignerState) (ks : KeyStore),
      ({ s with keystore := some ks } : CosignerState).is_complete = true) ∧
    (∀ (card : CosignerCard) (ks : KeyStore),
      ((card.update_keystore (some ks)).1).state.is_complete = true) := by
  refine ⟨?_, ?_, ?_, ?_, ?_⟩
  · intro s
    cases h : s.keystore <;> simp [CosignerState.is_complete, h]
  · intro i; rfl
  · intro s; rfl
  · intro s ks; rfl
  · intro card ks
    rw [update_keystore_some_eq]
    rfl

/-- C7: the status label is a pure function of the bound state: an
incomplete state renders "Not yet specified." with the red attention
style sheet; a complete state with a watching-only keystore renders
"External party." and otherwise "This account.", both without the
attention styling. -/
theorem update_status_label_spec :
    (∀ c1 c2 : CosignerCard, c1.state = c2.state →
      c1.update_status_label.label_text = c2.update_status_label.label_text ∧
      c1.update_status_label.label_stylesheet
        = c2.update_status_label.label_stylesheet) ∧
    (∀ card : CosignerCard, card.state.is_complete = false →
      card.update_status_label.label_text = "Not yet specified." ∧
      card.update_status_label.label_stylesheet
        = "QLabel \x7b color: red; \x7d") ∧
    (∀ (card : CosignerCard) (ks : KeyStore),
      card.state.keystore = some ks → ks.is_watching_only = true →
      card.update_status_label.label_text = "External party." ∧
      card.update_status_label.label_stylesheet = "") ∧
    (∀ (card : CosignerCard) (ks : KeyStore),
      card.state.keystore = some ks → ks.is_watching_only = false →
      card.update_status_label.label_text = "This account." ∧
      card.update_status_label.label_stylesheet = "") := by
  refine ⟨?_, ?_, ?_, ?_⟩
  · intro c1 c2 h
    unfold CosignerCard.update_status_label
    rw [h]
    rcases hks : c2.state.keystore with _ | k
    · simp [CosignerState.is_complete, hks]
    · cases hw : k.is_watching_only <;>
        simp [CosignerState.is_complete, hks, hw]
  · intro card h
    unfold CosignerCard.update_status_label
    simp [h]
  · intro card ks hks hw
    unfold CosignerCard.update_status_label
    simp [CosignerState.is_complete, hks, hw]
  · intro card ks hks hw
    unfold CosignerCard.update_status_label
    simp [CosignerState.is_complete, hks, hw]

/-- Witness for C7 at concrete cards: `sampleCard` is incomplete,
`boundCard` holds the watching-only `sampleKeystore`. -/
theorem update_status_label_spec_witness :
    (sampleCard.state.is_complete = false ∧
      sampleCard.update_status_label.label_text = "Not yet specified." ∧
      sampleCard.update_status_label.label_stylesheet
        = "QLabel \x7b color: red; \x7d") ∧
    (boundCard.state.keystore = some sampleKeystore ∧
      sampleKeystore.is_watching_only = true ∧
      boundCard.update_status_label.label_text = "External party." ∧
      boundCard.update_status_label.label_stylesheet = "") :=
  ⟨⟨rfl, (update_status_label_spec.2.1 sampleCard rfl).1,
     (update_status_label_spec.2.1 sampleCard rfl).2⟩,
   ⟨rfl, rfl, (update_status_label_spec.2.2.1 boundCard sampleKeystore rfl rfl).1,
     (update_status_label_spec.2.2.1 boundCard sampleKeystore rfl rfl).2⟩⟩


theorem event_text_changed_readonly
    (bip32Parse : String → Except Unit BipKey)
    (instantiate : String → Except Unit KeyStore)
    (card : CosignerCard) (hro : card.key_edit_readonly = true) :
    CosignerCard.event_text_changed bip32Parse instantiate card
      = Except.ok (card, []) := by
  unfold CosignerCard.event_text_changed
  rw [hro]
  simp

theorem event_text_changed_parse_error
    (bip32Parse : String → Except Unit BipKey)
    (instantiate : String → Except Unit KeyStore)
    (card : CosignerCard) (u : Unit)
    (hro : card.key_edit_readonly = false)
    (hp : bip32Parse card.key_edit_text = Except.error u) :
    CosignerCard.event_text_changed bip32Parse instantiate card
      = Except.ok (card, []) := by
  unfold CosignerCard.event_text_changed
  rw [hro, hp]
  simp

theorem event_text_changed_private
    (bip32Parse : String → Except Unit BipKey)
    (instantiate : String → Except Unit KeyStore)
    (card : CosignerCard)
    (hro : card.key_edit_readonly = false)
    (hp : bip32Parse card.key_edit_text = Except.ok BipKey.privateKey) :
    CosignerCard.event_text_changed bip32Parse instantiate card
      = Except.ok (card, []) := by
  unfold CosignerCard.event_text_changed
  rw [hro, hp]
  simp

theorem event_text_changed_public_ok
    (bip32Parse : String → Except Unit BipKey)
    (instantiate : String → Except Unit KeyStore)
    (card : CosignerCard) (ks : KeyStore)
    (hro : card.key_edit_readonly = false)
    (hp : bip32Parse card.key_edit_text = Except.ok BipKey.publicKey)
    (hi : instantiate card.key_edit_text = Except.ok ks) :
    CosignerCard.event_text_changed bip32Parse instantiate card
      = Except.ok (card.update_keystore (some ks)) := by
  unfold CosignerCard.event_text_changed
  rw [hro, hp, hi]
  simp

theorem event_text_changed_public_error
    (bip32Parse : String → Except Unit BipKey)
    (instantiate : String → Except Unit KeyStore)
    (card : CosignerCard) (e : Unit)
    (hro : card.key_edit_readonly = false)
    (hp : bip32Parse card.key_edit_text = Except.ok BipKey.publicKey)
    (hi : instantiate card.key_edit_text = Except.error e) :
    CosignerCard.event_text_changed bip32Parse instantiate card
      = Except.error e := by
  unfold CosignerCard.event_text_changed
  rw [hro, hp, hi]
  simp

/-- C8: `reset()` only clears `keystore` and `is_local` (so
`cosigner_index` is untouched), and no operation on the state or the card
ever changes `cosigner_index` after construction. -/
theorem cosigner_index_immutable :
    (∀ s : CosignerState,
      s.reset = { s with keystore := none, is_local := false }) ∧
    (∀ (card : CosignerCard) (k : Option KeyStore),
      ((card.update_keystore k).1).state.cosigner_index
        = card.state.cosigner_index) ∧
    (∀ card : CosignerCard,
      card.update_status_label.state.cosigner_index
        = card.state.cosigner_index) ∧
    (∀ (wr : Option KeyStore) (card : CosignerCard),
      ((CosignerCard.event_click_set_cosigner_key wr card).1).state.cosigner_index
        = card.state.cosigner_index) ∧
    (∀ (bip32Parse : String → Except Unit BipKey)
       (instantiate : String → Except Unit KeyStore)
       (card c : CosignerCard) (ns : List Nat),
      CosignerCard.event_text_changed bip32Parse instantiate card
          = Except.ok (c, ns) →
      c.state.cosigner_index = card.state.cosigner_index) ∧
    (∀ s : CosignerState,
      ((CosignerCard.init s).1).state.cosigner_index = s.cosigner_index) := by
  have hup : ∀ (card : CosignerCard) (k : Option KeyStore),
      ((card.update_keystore k).1).state.cosigner_index
        = card.state.cosigner_index := by
    intro card k
    cases k with
    | none =>
        rw [update_keystore_none_eq]
        rfl
    | some ks => rw [update_keystore_some_eq]
  refine ⟨fun s => rfl, hup, ?_, ?_, ?_, ?_⟩
  · intro card
    rw [update_status_label_state_eq]
  · intro wr card
    unfold CosignerCard.event_click_set_cosigner_key
    rcases hks : card.state.keystore with _ | k
    · simp only [Option.isSome_none, Bool.false_eq_true, if_false]
      cases wr with
      | none => exact hup card none
      | some ks => exact hup card (some ks)
    · simp only [Option.isSome_some, if_true]
      exact hup card none
  · intro bip32Parse instantiate card c ns h
    rcases hro : card.key_edit_readonly with _ | _
    · rcases hp : bip32Parse card.key_edit_text with u | key
      · rw [event_text_changed_parse_error bip32Parse instantiate card u hro hp]
          at h
        simp only [Except.ok.injEq, Prod.mk.injEq] at h
        rw [← h.1]
      · cases key with
        | privateKey =>
            rw [event_text_changed_private bip32Parse instantiate card hro hp]
              at h
            simp only [Except.ok.injEq, Prod.mk.injEq] at h
            rw [← h.1]
        | publicKey =>
            rcases hi : instantiate card.key_edit_text with u | ks
            · rw [event_text_changed_public_error bip32Parse instantiate card u
                hro hp hi] at h
              exact absurd h (by simp)
            · rw [event_text_changed_public_ok bip32Parse instantiate card ks
                hro hp hi] at h
              simp only [Except.ok.injEq] at h
              have h1 : (card.update_keystore (some ks)).1 = c := by rw [h]
              rw [← h1]
              exact hup card (some ks)
    · rw [event_text_changed_readonly bip32Parse instantiate card hro] at h
      simp only [Except.ok.injEq, Prod.mk.injEq] at h
      rw [← h.1]
  · intro s
    unfold CosignerCard.init
    rw [update_keystore_none_eq]
    rfl

/-- Witness for C8: discharging the hypothesis of the `_event_text_changed`
conjunct at a concrete rejected input on `sampleCard`. -/
theorem cosigner_index_immutable_witness :
    CosignerCard.event_text_changed parseFails instantiateConst sampleCard
        = Except.ok (sampleCard, []) ∧
    sampleCard.state.cosigner_index = sampleCard.state.cosigner_index :=
  ⟨rfl, cosigner_index_immutable.2.2.2.2.1 parseFails instantiateConst
      sampleCard sampleCard [] rfl⟩

/-- C10: constructing a `CosignerCard` unconditionally resets the supplied
state - even one already holding a keystore - and emits exactly one
`cosigner_updated` notification with that state's `cosigner_index`. -/
theorem cosigner_card_init_resets (s : CosignerState) :
    CosignerCard.init s =
      ({ state := { cosigner_index := s.cosigner_index, keystore := none,
                    is_local := false },
         key_edit_readonly := false,
         key_edit_text := "",
         button_icon := Icon.keyIcon,
         button_tooltip := "Set the current key for this cosigner",
         label_text := "Not yet specified.",
         label_stylesheet := "QLabel \x7b color: red; \x7d" },
       [s.cosigner_index]) := by
  unfold CosignerCard.init
  rw [update_keystore_none_eq]
  rfl

/-- C1: feeding a string that parses as a valid extended public key into an
Empty card binds the instantiated keystore, makes the key field read-only
and displaying `get_master_public_key()`, and emits exactly one
`cosigner_updated` notification with the card's `cosigner_index`. -/
theorem feed_valid_public_key_binds
    (bip32Parse : String → Except Unit BipKey)
    (instantiate : String → Except Unit KeyStore)
    (s : String) (card : CosignerCard) (ks : KeyStore)
    (_hEmpty : card.state.keystore = none)
    (hEditable : card.key_edit_readonly = false)
    (hParse : bip32Parse s = Except.ok BipKey.publicKey)
    (hInst : instantiate s = Except.ok ks) :
    CosignerCard.feed_text bip32Parse instantiate s card =
      Except.ok
        ({ state := { card.state with keystore := some ks },
           key_edit_readonly := true,
           key_edit_text := ks.get_master_public_key,
           button_icon := Icon.deleteIcon,
           button_tooltip := "Clear the current key for this cosigner",
           label_text := if ks.is_watching_only then "External party."
                         else "This account.",
           label_stylesheet := "" },
         [card.state.cosigner_index]) := by
  unfold CosignerCard.feed_text
  rw [event_text_changed_public_ok bip32Parse instantiate
      { card with key_edit_text := s } ks hEditable hParse hInst,
    update_keystore_some_eq]

/-- Witness for C1: `sampleCard` fed a string every collaborator accepts. -/
theorem feed_valid_public_key_binds_witness :
    CosignerCard.feed_text parseAlwaysPublic instantiateConst "xpub-input"
        sampleCard =
      Except.ok
        ({ state := { sampleCard.state with keystore := some sampleKeystore },
           key_edit_readonly := true,
           key_edit_text := sampleKeystore.get_master_public_key,
           button_icon := Icon.deleteIcon,
           button_tooltip := "Clear the current key for this cosigner",
           label_text := if sampleKeystore.is_watching_only
                         then "External party." else "This account.",
           label_stylesheet := "" },
         [sampleCard.state.cosigner_index]) :=
  feed_valid_public_key_binds parseAlwaysPublic instantiateConst "xpub-input"
    sampleCard sampleKeystore rfl rfl rfl rfl

/-- C2: feeding a string that fails extended-key parsing, or parses as an
extended private key, leaves an Empty card's state untouched, returns
normally (silent rejection) and emits no notification. -/
theorem feed_invalid_key_silent
    (bip32Parse : String → Except Unit BipKey)
    (instantiate : String → Except Unit KeyStore)
    (s : String) (card : CosignerCard)
    (_hEmpty : card.state.keystore = none)
    (hEditable : card.key_edit_readonly = false)
    (hReject : bip32Parse s = Except.error ()
      ∨ bip32Parse s = Except.ok BipKey.privateKey) :
    CosignerCard.feed_text bip32Parse instantiate s card
      = Except.ok ({ card with key_edit_text := s }, []) := by
  unfold CosignerCard.feed_text
  rcases hReject with h | h
  · exact event_text_changed_parse_error bip32Parse instantiate
      { card with key_edit_text := s } () hEditable h
  · exact event_text_changed_private bip32Parse instantiate
      { card with key_edit_text := s } hEditable h

/-- Witness for C2: `sampleCard` fed a string the parser rejects. -/
theorem feed_invalid_key_silent_witness :
    CosignerCard.feed_text parseFails instantiateConst "garbage" sampleCard
      = Except.ok ({ sampleCard with key_edit_text := "garbage" }, []) :=
  feed_invalid_key_silent parseFails instantiateConst "garbage" sampleCard
    rfl rfl (Or.inl rfl)

/-- C3: clicking the toggle button while the card is Bound resets the
state (keystore null, `is_local` false), clears the key field and makes it
editable, restores the key icon and "set" tooltip, and emits exactly one
`cosigner_updated` notification with the card's `cosigner_index`. -/
theorem toggle_bound_resets
    (wizardResult : Option KeyStore) (card : CosignerCard) (ks : KeyStore)
    (hBound : card.state.keystore = some ks) :
    CosignerCard.event_click_set_cosigner_key wizardResult card =
      ({ state := { cosigner_index := card.state.cosigner_index,
                    keystore := none, is_local := false },
         key_edit_readonly := false,
         key_edit_text := "",
         button_icon := Icon.keyIcon,
         button_tooltip := "Set the current key for this cosigner",
         label_text := "Not yet specified.",
         label_stylesheet := "QLabel \x7b color: red; \x7d" },
       [card.state.cosigner_index]) := by
  unfold CosignerCard.event_click_set_cosigner_key
  rw [hBound]
  simp only [Option.isSome_some, if_true]
  rw [update_keystore_none_eq]
  rfl

/-- Witness for C3: toggling `boundCard`, which holds `sampleKeystore`. -/
theorem toggle_bound_resets_witness :
    CosignerCard.event_click_set_cosigner_key none boundCard =
      ({ state := { cosigner_index := boundCard.state.cosigner_index,
                    keystore := none, is_local := false },
         key_edit_readonly := false,
         key_edit_text := "",
         button_icon := Icon.keyIcon,
         button_tooltip := "Set the current key for this cosigner",
         label_text := "Not yet specified.",
         label_stylesheet := "QLabel \x7b color: red; \x7d" },
       [boundCard.state.cosigner_index]) :=
  toggle_bound_resets none boundCard sampleKeystore rfl

/-- C6: invoking the sub-wizard from an Empty card and having it not
complete successfully resets the (already empty) card and still emits one
`cosigner_updated` notification with the `cosigner_index`; when `is_local`
was false the reset does not change the state at all. -/
theorem wizard_cancelled_still_notifies (card : CosignerCard)
    (hEmpty : card.state.keystore = none) :
    CosignerCard.event_click_set_cosigner_key none card =
      ({ state := card.state.reset,
         key_edit_readonly := false,
         key_edit_text := "",
         button_icon := Icon.keyIcon,
         button_tooltip := "Set the current key for this cosigner",
         label_text := "Not yet specified.",
         label_stylesheet := "QLabel \x7b color: red; \x7d" },
       [card.state.cosigner_index]) ∧
    (card.state.is_local = false → card.state.reset = card.state) := by
  constructor
  · unfold CosignerCard.event_click_set_cosigner_key
    rw [hEmpty]
    simp only [Option.isSome_none, Bool.false_eq_true, if_false]
    show card.update_keystore none = _
    rw [update_keystore_none_eq]
  · intro hloc
    have h1 : card.state.reset
        = { card.state with keystore := none, is_local := false } := rfl
    rw [h1, ← hEmpty, ← hloc]

/-- Witness for C6: cancelling the sub-wizard on the Empty `sampleCard`. -/
theorem wizard_cancelled_still_notifies_witness :
    (CosignerCard.event_click_set_cosigner_key none sampleCard =
      ({ state := sampleCard.state.reset,
         key_edit_readonly := false,
         key_edit_text := "",
         button_icon := Icon.keyIcon,
         button_tooltip := "Set the current key for this cosigner",
         label_text := "Not yet specified.",
         label_stylesheet := "QLabel \x7b color: red; \x7d" },
       [sampleCard.state.cosigner_index])) ∧
    (sampleCard.state.is_local = false →
      sampleCard.state.reset = sampleCard.state) :=
  wizard_cancelled_still_notifies sampleCard rfl

theorem add_states_items (l : CosignerList) (states : List CosignerState) :
    (l.add_states states).items
      = l.items ++ states.map (fun s => (CosignerCard.init s).1) ∧
    (l.add_states states).sorting_enabled = l.sorting_enabled := by
  induction states generalizing l with
  | nil => simp [CosignerList.add_states]
  | cons s rest ih =>
      have hstep : l.add_states (s :: rest)
          = ((l.add_state s).1).add_states rest := rfl
      rw [hstep]
      rcases ih ((l.add_state s).1) with ⟨h1, h2⟩
      rw [h1, h2]
      constructor
      · show (l.items ++ [(CosignerCard.init s).1]) ++ _ = _
        simp
      · rfl

/-- C9: `add_state` appends a freshly constructed card for the given state
and returns it; a sequence of N `add_state` calls therefore yields exactly
N cards in insertion order, independent of key content, with sorting
disabled throughout. -/
theorem add_state_insertion_order :
    (∀ (l : CosignerList) (state : CosignerState),
      l.add_state state
        = ({ l with items := l.items ++ [(CosignerCard.init state).1] },
           (CosignerCard.init state).1)) ∧
    (∀ states : List CosignerState,
      (CosignerList.init.add_states states).items
        = states.map (fun s => (CosignerCard.init s).1)) ∧
    (∀ states : List CosignerState,
      (CosignerList.init.add_states states).items.length = states.length) ∧
    (∀ states : List CosignerState,
      (CosignerList.init.add_states states).sorting_enabled = false) := by
  have hitems : ∀ states : List CosignerState,
      (CosignerList.init.add_states states).items
        = states.map (fun s => (CosignerCard.init s).1) := by
    intro states
    have h := (add_states_items CosignerList.init states).1
    simpa [CosignerList.init] using h
  refine ⟨fun l state => rfl, hitems, ?_, ?_⟩
  · intro states
    rw [hitems states, List.length_map]
  · intro states
    exact (add_states_items CosignerList.init states).2

/-- C4 counterexample: with a collaborator pair where the parse succeeds as
a public key but keystore instantiation raises, the `textChanged` handler
propagates the failure instead of treating it as "not yet a valid key". -/
theorem instantiation_failure_propagates :
    CosignerCard.feed_text parseAlwaysPublic instantiateFails "xpub-input"
        sampleCard
      = Except.error () := rfl

/-- C4 (amended): a failure of extended-key parsing is always caught and
treated as "not yet a valid key" (the handler returns normally with the
card unchanged and no notification), but a failure of keystore
instantiation after a successful public-key parse is NOT caught: the only
way the handler can propagate a failure is an editable field whose text
parses as a public key and whose keystore instantiation raises. -/
theorem text_changed_exception_policy :
    (∀ (bip32Parse : String → Except Unit BipKey)
       (instantiate : String → Except Unit KeyStore)
       (card : CosignerCard) (u : Unit),
      bip32Parse card.key_edit_text = Except.error u →
      CosignerCard.event_text_changed bip32Parse instantiate card
        = Except.ok (card, [])) ∧
    (∀ (bip32Parse : String → Except Unit BipKey)
       (instantiate : String → Except Unit KeyStore)
       (card : CosignerCard) (e : Unit),
      CosignerCard.event_text_changed bip32Parse instantiate card
          = Except.error e →
      card.key_edit_readonly = false ∧
      bip32Parse card.key_edit_text = Except.ok BipKey.publicKey ∧
      instantiate card.key_edit_text = Except.error e) := by
  constructor
  · intro bip32Parse instantiate card u hp
    rcases hro : card.key_edit_readonly with _ | _
    · exact event_text_changed_parse_error bip32Parse instantiate card u hro hp
    · exact event_text_changed_readonly bip32Parse instantiate card hro
  · intro bip32Parse instantiate card e h
    rcases hro : card.key_edit_readonly with _ | _
    · rcases hp : bip32Parse card.key_edit_text with u | key
      · rw [event_text_changed_parse_error bip32Parse instantiate card u
          hro hp] at h
        exact absurd h (by simp)
      · cases key with
        | privateKey =>
            rw [event_text_changed_private bip32Parse instantiate card
              hro hp] at h
            exact absurd h (by simp)
        | publicKey =>
            rcases hi : instantiate card.key_edit_text with u | ks
            · rw [event_text_changed_public_error bip32Parse instantiate card u
                hro hp hi] at h
              cases u
              cases e
              exact ⟨rfl, rfl, rfl⟩
            · rw [event_text_changed_public_ok bip32Parse instantiate card ks
                hro hp hi] at h
              exact absurd h (by simp)
    · rw [event_text_changed_readonly bip32Parse instantiate card hro] at h
      exact absurd h (by simp)

/-- Witness for the amended C4: a concrete propagated instantiation
failure, with the parse succeeding as a public key on an editable field. -/
theorem text_changed_exception_policy_witness :
    ({ sampleCard with key_edit_text := "xpub-input" }
        : CosignerCard).key_edit_readonly = false ∧
    parseAlwaysPublic "xpub-input" = Except.ok BipKey.publicKey ∧
    instantiateFails "xpub-input" = Except.error () :=
  text_changed_exception_policy.2 parseAlwaysPublic instantiateFails
    { sampleCard with key_edit_text := "xpub-input" } () rfl
